import Mathlib

/-!
Verification development for the yolov8_ros perception node
(`scripts/yolo_v8.py`, class `Yolo_Dect`).

The Python source is shallowly embedded: the stateful callback code becomes
explicit state passing on a `NodeState`, outbound ROS publications and
detector invocations are recorded as an explicit `Event` trace, fallible
steps (numpy reshape, cv2.cvtColor, model inference) return `Except`, and
the external collaborators (the two YOLO models, the OpenCV drawing
primitives) are parameters of the pipeline, constrained exactly as the real
library behaves (drawing is in place on a frame and cannot change its shape).
Machine floats occurring in the source (box coordinates, confidences) are
modelled as rationals.
-/

deriving instance DecidableEq for Except

namespace YoloV8

/-- One byte of image payload (0..255 in the real program). -/
abbrev Byte := Nat

/-- Inbound `sensor_msgs/Image` in raw mode: explicit dimensions plus the
packed byte payload (source-native BGR order). -/
structure RawImageMsg where
  height : Nat
  width : Nat
  data : List Byte
deriving DecidableEq

/-- An in-memory image: the result of reshaping a flat byte payload into
`height x width x channels` (a numpy `ndarray` in the source). -/
structure ImageBuffer where
  height : Nat
  width : Nat
  channels : Nat
  data : List Byte
deriving DecidableEq

/-- Shape information of a buffer, including the payload length.  OpenCV
drawing primitives operate in place and preserve it. -/
def shapeOf (b : ImageBuffer) : Nat × Nat × Nat × Nat :=
  (b.height, b.width, b.channels, b.data.length)

/-- Failures of the frame-decoding step (line 52-53 of the source):
`reshapeError` is numpy refusing `reshape(height, width, -1)`;
`cvtColorError` is cv2 refusing `COLOR_BGR2RGB` on a non-3-channel array. -/
inductive DecodeError
  | reshapeError
  | cvtColorError
deriving DecidableEq

/-- `np.frombuffer(image.data, dtype=np.uint8).reshape(image.height, image.width, -1)`.
numpy infers the last dimension as `len / (h*w)`; it fails when `h*w = 0`
(the inferred dimension is ambiguous) or when `len` is not divisible by `h*w`. -/
def npReshape (msg : RawImageMsg) : Except DecodeError ImageBuffer :=
  if 0 < msg.height * msg.width ∧ msg.data.length % (msg.height * msg.width) = 0 then
    Except.ok { height := msg.height, width := msg.width,
                channels := msg.data.length / (msg.height * msg.width),
                data := msg.data }
  else Except.error DecodeError.reshapeError

/-- Per-pixel BGR to RGB reorder of a packed 3-channel payload: every
consecutive byte triple `b, g, r` becomes `r, g, b`. -/
def swapBGR : List Byte → List Byte
  | b :: g :: r :: rest => r :: g :: b :: swapBGR rest
  | other => other

/-- `cv2.cvtColor(img, cv2.COLOR_BGR2RGB)`: requires exactly 3 channels,
and swaps the first and third channel of every pixel. -/
def cvtColorBGR2RGB (b : ImageBuffer) : Except DecodeError ImageBuffer :=
  if b.channels = 3 then Except.ok { b with data := swapBGR b.data }
  else Except.error DecodeError.cvtColorError

/-- The raw-mode decode pipeline of `image_callback` (lines 52-53):
reshape the payload, then convert BGR to RGB. -/
def image_decode (msg : RawImageMsg) : Except DecodeError ImageBuffer :=
  match npReshape msg with
  | Except.error e => Except.error e
  | Except.ok buf => cvtColorBGR2RGB buf

/-- One raw detection as produced by a YOLO model: float box corners
`xyxy = (x0, y0, x1, y1)`, a numeric class id and a float confidence.
Floats are modelled as rationals. -/
structure RawDetection where
  x0 : ℚ
  y0 : ℚ
  x1 : ℚ
  y1 : ℚ
  cls : Nat
  conf : ℚ
deriving DecidableEq

/-- The result object returned by one model invocation: the ordered box
list (`results[0].boxes`) and the model's own class-name table
(`results[0].names`). -/
structure ModelResult where
  boxes : List RawDetection
  names : Nat → String

/-- Failures inside a detector call (bad buffer shape/dtype, or the
requested execution device is unavailable). -/
inductive ModelInferenceError
  | shapeError
  | deviceError
deriving DecidableEq

/-- A detector adapter: given the per-call confidence floor and an image
buffer, produce a model result or fail. The two YOLO models are external
capabilities, so they are parameters of the pipeline. -/
abbrev Detector := ℚ → ImageBuffer → Except ModelInferenceError ModelResult

/-- One loaded model as held by the node: the detection capability plus the
`.conf` attribute assigned at startup (`self.model1.conf = conf`). -/
structure ModelState where
  run : Detector
  conf : ℚ

/-- A detector failure surfaced during the fusion step of a frame. -/
inductive FusionError
  | fusion (e : ModelInferenceError)
deriving DecidableEq

/-- Outbound `yolov8_ros_msgs/BoundingBox`: integer corner coordinates, the
resolved class label and the raw confidence (field `probability`). -/
structure BoundingBox where
  xmin : ℤ
  ymin : ℤ
  xmax : ℤ
  ymax : ℤ
  Class : String
  probability : ℚ
deriving DecidableEq

/-- Conversion applied by `np.int64(...)` to a Python float: truncation
toward zero (floor for nonnegative values, ceiling for negative ones). -/
def truncToZero (q : ℚ) : ℤ := if 0 ≤ q then ⌊q⌋ else ⌈q⌉

/-- The `BoundingBox` built for one raw detection in `handle_results`
(lines 82-88): `np.int64` truncation of each `xyxy` coordinate, class label
resolved through the model's name table, confidence passed through. -/
def mkBoundingBox (names : Nat → String) (r : RawDetection) : BoundingBox :=
  { xmin := truncToZero r.x0
    ymin := truncToZero r.y0
    xmax := truncToZero r.x1
    ymax := truncToZero r.y1
    Class := names r.cls
    probability := r.conf }

/-- The OpenCV drawing primitives used by `handle_results`
(`cv2.rectangle`, `cv2.putText`).  They are external collaborators; the
only contract the pipeline relies on is that they draw in place on the
given frame and therefore cannot change its shape or payload length.
`putText` receives the class label and the confidence (the source formats
them into one string; the text content is irrelevant to the pipeline). -/
structure DrawOps where
  rectangle : ImageBuffer → ℤ × ℤ → ℤ × ℤ → ImageBuffer
  putText : ImageBuffer → String → ℚ → ℤ × ℤ → ImageBuffer
  rectangle_shape : ∀ b p q, shapeOf (rectangle b p q) = shapeOf b
  putText_shape : ∀ b s c p, shapeOf (putText b s c p) = shapeOf b

/-- Draw one detection onto a frame: the rectangle at the box corners,
then the label text just above the top-left corner (lines 91-92). -/
def drawDetection (ops : DrawOps) (frame : ImageBuffer) (bb : BoundingBox) : ImageBuffer :=
  let f1 := ops.rectangle frame (bb.xmin, bb.ymin) (bb.xmax, bb.ymax)
  ops.putText f1 bb.Class bb.probability (bb.xmin, bb.ymin - 10)

/-- One iteration of the `for result in results[0].boxes` loop of
`handle_results`: build the `BoundingBox`, record it, draw it. -/
def handleStep (ops : DrawOps) (names : Nat → String)
    (acc : List BoundingBox × ImageBuffer) (r : RawDetection) :
    List BoundingBox × ImageBuffer :=
  let bb := mkBoundingBox names r
  (acc.1 ++ [bb], drawDetection ops acc.2 bb)

/-- `Yolo_Dect.handle_results` (lines 80-93): iterate over one model's
boxes in order, building a `BoundingBox` for each and drawing it on the
frame.  Besides the returned frame we record the ordered sequence of
`BoundingBox` values constructed by the loop. -/
def handle_results (ops : DrawOps) (results : ModelResult) (frame : ImageBuffer) :
    List BoundingBox × ImageBuffer :=
  results.boxes.foldl (handleStep ops results.names) ([], frame)

/-- Outbound `sensor_msgs/Image` as filled in by `publish_image`. -/
structure ImageMsg where
  height : Nat
  width : Nat
  encoding : String
  data : List Byte
  step : Nat
  frame_id : String
deriving DecidableEq

/-- Outbound `yolov8_ros_msgs/BoundingBoxes` message (the type of the
`position_pub` publisher created in `__init__`). -/
structure BoundingBoxesMsg where
  bounding_boxes : List BoundingBox
  frame_id : String
deriving DecidableEq

/-- Observable actions of one frame pass: a detector invocation with the
confidence floor passed to it, a publication on either outbound topic, or
the diagnostic `cv2.imshow` display. -/
inductive Event
  | detectorCall (idx : Nat) (floor : ℚ)
  | pubBoundingBoxes (m : BoundingBoxesMsg)
  | pubImage (m : ImageMsg)
  | showImage (b : ImageBuffer)
deriving DecidableEq

/-- Startup configuration resolved once from the parameter server. -/
structure Config where
  camera_frame : String
  use_compressed : Bool
  conf : ℚ
  visualize : Bool
  use_cpu : Bool

/-- `self.device = 'cpu' if rospy.get_param('/use_cpu', False) else 'cuda'`. -/
def deviceOf (cfg : Config) : String := if cfg.use_cpu then "cpu" else "cuda"

/-- Process-wide state of the node: the last decoded frame
(`self.color_image`, absent before the first callback) and the two loaded
models. -/
structure NodeState where
  color_image : Option ImageBuffer
  model1 : ModelState
  model2 : ModelState

/-- Model loading and configuration in `__init__` (lines 31-39): both
models get the same configured `.conf` threshold. -/
def yoloInit (cfg : Config) (d1 d2 : Detector) : NodeState :=
  { color_image := none
    model1 := { run := d1, conf := cfg.conf }
    model2 := { run := d2, conf := cfg.conf } }

/-- The confidence floor hardcoded at each inference call site
(`conf=0.3` in lines 64-65). -/
def perCallConf : ℚ := 3 / 10

/-- `Yolo_Dect.publish_image` (lines 95-105): fixed `rgb8` encoding, the
given dimensions, `step = width * 3`, payload `imgdata.tobytes()`, header
frame id from the configuration. -/
def publish_image (cfg : Config) (imgdata : ImageBuffer) (height width : Nat) : ImageMsg :=
  { height := height
    width := width
    encoding := "rgb8"
    data := imgdata.data
    step := width * 3
    frame_id := cfg.camera_frame }

/-- `self.color_image.copy()`: a fresh buffer with the same contents,
decoupled from the original (value semantics make this the identity; the
point is that subsequent draws target the copy, never `color_image`). -/
def bufferCopy (b : ImageBuffer) : ImageBuffer := b

/-- The per-frame result values local to a successful `process_image`
pass: the ordered sequence of `BoundingBox` values constructed during the
pass (model 1's first, then model 2's) and the annotated frame. -/
structure ProcessOutput where
  merged_boxes : List BoundingBox
  combined_frame : ImageBuffer
deriving DecidableEq

/-- `Yolo_Dect.process_image` (lines 62-78): run model 1 then model 2 on
the current frame with the hardcoded `conf=0.3` floor, copy the frame,
draw model 1's results then model 2's results on the copy, publish the
annotated image, and optionally display it.  A raised
`ModelInferenceError` aborts the pass (wrapped as `FusionError`); any
events already performed (the detector calls) stay in the trace.  Note the
trace contains no `pubBoundingBoxes` event: the source never publishes on
`position_pub`. -/
def process_image (cfg : Config) (ops : DrawOps) (m1 m2 : ModelState)
    (color_image : ImageBuffer) : List Event × Except FusionError ProcessOutput :=
  match m1.run perCallConf color_image with
  | Except.error e =>
      ([Event.detectorCall 1 perCallConf], Except.error (FusionError.fusion e))
  | Except.ok results1 =>
      match m2.run perCallConf color_image with
      | Except.error e =>
          ([Event.detectorCall 1 perCallConf, Event.detectorCall 2 perCallConf],
           Except.error (FusionError.fusion e))
      | Except.ok results2 =>
          let combined0 := bufferCopy color_image
          let h1 := handle_results ops results1 combined0
          let h2 := handle_results ops results2 h1.2
          let imgMsg := publish_image cfg h2.2 color_image.height color_image.width
          ([Event.detectorCall 1 perCallConf, Event.detectorCall 2 perCallConf,
            Event.pubImage imgMsg]
            ++ (if cfg.visualize then [Event.showImage h2.2] else []),
           Except.ok { merged_boxes := h1.1 ++ h2.1, combined_frame := h2.2 })

/-- A frame-local failure surfaced out of the callback: decode failure or
fusion failure.  In the real node these are uncaught Python exceptions in
the subscriber callback; rospy logs them and keeps dispatching. -/
inductive NodeError
  | decodeErr (e : DecodeError)
  | fusionErr (e : FusionError)
deriving DecidableEq

/-- `Yolo_Dect.image_callback` (lines 51-54) followed by the
`process_image` pass: reshape the payload (first assignment to
`self.color_image`), convert to RGB (second assignment), then process.
Returns the new node state, the event trace of the pass and its outcome. -/
def image_callback (cfg : Config) (ops : DrawOps) (s : NodeState)
    (msg : RawImageMsg) : NodeState × List Event × Except NodeError ProcessOutput :=
  match npReshape msg with
  | Except.error e => (s, [], Except.error (NodeError.decodeErr e))
  | Except.ok buf =>
    match cvtColorBGR2RGB buf with
    | Except.error e =>
        ({ s with color_image := some buf }, [], Except.error (NodeError.decodeErr e))
    | Except.ok rgb =>
        let s1 := { s with color_image := some rgb }
        let pr := process_image cfg ops s1.model1 s1.model2 rgb
        (s1, pr.1,
          match pr.2 with
          | Except.error e => Except.error (NodeError.fusionErr e)
          | Except.ok out => Except.ok out)

/-- Is an event a publication on the `BoundingBoxes` topic? -/
def isPubBoundingBoxes : Event → Bool
  | Event.pubBoundingBoxes _ => true
  | _ => false

/-- Is an event a publication on the detection-image topic? -/
def isPubImage : Event → Bool
  | Event.pubImage _ => true
  | _ => false

/-- Is an event any outbound publication? -/
def isPublishEvent (e : Event) : Bool := isPubBoundingBoxes e || isPubImage e

/-- Is an event a detector invocation? -/
def isDetectorCall : Event → Bool
  | Event.detectorCall _ _ => true
  | _ => false

/-- The confidence floor carried by a detector-invocation event. -/
def eventFloor : Event → Option ℚ
  | Event.detectorCall _ q => some q
  | _ => none

/-- Did a fallible computation succeed? -/
def exceptIsOk : Except ε α → Bool
  | Except.ok _ => true
  | Except.error _ => false

/-- Did the callback fail in the decode step? -/
def isDecodeError : Except NodeError ProcessOutput → Bool
  | Except.error (NodeError.decodeErr _) => true
  | _ => false

/-- The merged bounding-box sequence of a pass (empty if the pass failed). -/
def mergedOf (r : List Event × Except FusionError ProcessOutput) : List BoundingBox :=
  match r.2 with
  | Except.ok out => out.merged_boxes
  | Except.error _ => []

/-- Drawing operations that leave the frame untouched; the simplest
concrete instance of the OpenCV drawing contract, used to evaluate the
pipeline on concrete inputs. -/
def idDrawOps : DrawOps :=
  { rectangle := fun b _ _ => b
    putText := fun b _ _ _ => b
    rectangle_shape := fun _ _ _ => rfl
    putText_shape := fun _ _ _ _ => rfl }

/-- A concrete startup configuration for evaluating the pipeline. -/
def cfgA : Config :=
  { camera_frame := "cam"
    use_compressed := false
    conf := 1 / 2
    visualize := false
    use_cpu := true }

/-- A concrete model result holding one person detection. -/
def resPerson : ModelResult :=
  { boxes := [⟨10, 10, 50, 80, 0, 91 / 100⟩], names := fun _ => "person" }

/-- A concrete model result holding no detections. -/
def resNone : ModelResult := { boxes := [], names := fun _ => "obj" }

/-- A concrete detector returning one person detection. -/
def detPerson : Detector := fun _ _ => Except.ok resPerson

/-- A concrete detector returning no detections. -/
def detEmpty : Detector := fun _ _ => Except.ok resNone

/-- A concrete detector that always fails with a device error. -/
def detFail : Detector :=
  fun _ _ => Except.error ModelInferenceError.deviceError

/-- The 2x2 BGR raw frame of the spec's concrete decode scenario:
pixels (0,0,255), (0,255,0), (255,0,0), (255,255,255). -/
def msg2x2 : RawImageMsg :=
  { height := 2, width := 2
    data := [0, 0, 255, 0, 255, 0, 255, 0, 0, 255, 255, 255] }

/-- A 1x1 BGR raw frame. -/
def msg1x1 : RawImageMsg := { height := 1, width := 1, data := [10, 20, 30] }

/-- The decoded 1x1 RGB buffer of `msg1x1`. -/
def bufTiny : ImageBuffer := { height := 1, width := 1, channels := 3, data := [30, 20, 10] }

/-- The BGR to RGB reorder keeps the payload length. -/
theorem swapBGR_length : ∀ l : List Byte, (swapBGR l).length = l.length
  | [] => rfl
  | [_] => rfl
  | [_, _] => rfl
  | _ :: _ :: _ :: rest => by
      simp only [swapBGR, List.length_cons]
      rw [swapBGR_length rest]

/-- The box list accumulated by the `handle_results` loop is the ordered
image of the raw boxes under `mkBoundingBox`, appended to the accumulator. -/
theorem handleFold_fst (ops : DrawOps) (names : Nat → String) :
    ∀ (boxes : List RawDetection) (acc : List BoundingBox) (frame : ImageBuffer),
      (boxes.foldl (handleStep ops names) (acc, frame)).1
        = acc ++ boxes.map (mkBoundingBox names)
  | [], acc, _ => by simp
  | r :: rest, acc, frame => by
      rw [List.foldl_cons, handleStep, handleFold_fst ops names rest]
      simp

/-- `handle_results` constructs exactly one `BoundingBox` per raw
detection, in the model's output order. -/
theorem handle_results_fst (ops : DrawOps) (res : ModelResult) (frame : ImageBuffer) :
    (handle_results ops res frame).1 = res.boxes.map (mkBoundingBox res.names) := by
  unfold handle_results
  rw [handleFold_fst]
  simp

/-- Drawing one detection preserves the frame shape. -/
theorem drawDetection_shape (ops : DrawOps) (f : ImageBuffer) (bb : BoundingBox) :
    shapeOf (drawDetection ops f bb) = shapeOf f := by
  unfold drawDetection
  rw [ops.putText_shape, ops.rectangle_shape]

/-- The `handle_results` loop preserves the frame shape. -/
theorem handleFold_snd_shape (ops : DrawOps) (names : Nat → String) :
    ∀ (boxes : List RawDetection) (acc : List BoundingBox) (frame : ImageBuffer),
      shapeOf (boxes.foldl (handleStep ops names) (acc, frame)).2 = shapeOf frame
  | [], _, _ => rfl
  | r :: rest, acc, frame => by
      rw [List.foldl_cons, handleStep, handleFold_snd_shape ops names rest]
      exact drawDetection_shape ops frame (mkBoundingBox names r)

/-- `handle_results` preserves the frame shape. -/
theorem handle_results_snd_shape (ops : DrawOps) (res : ModelResult) (frame : ImageBuffer) :
    shapeOf (handle_results ops res frame).2 = shapeOf frame := by
  unfold handle_results
  exact handleFold_snd_shape ops res.names res.boxes [] frame

/-- Claim C2: for every raw-mode inbound message whose payload length is
not `height * width * 3`, the callback fails with a decode error, and its
event trace is empty: no detector invocation and no publication happen
for that frame. -/
theorem c2_bad_payload_length_decode_error_no_downstream
    (cfg : Config) (ops : DrawOps) (s : NodeState) (msg : RawImageMsg)
    (h : msg.data.length ≠ msg.height * msg.width * 3) :
    (image_callback cfg ops s msg).2.1 = [] ∧
    isDecodeError (image_callback cfg ops s msg).2.2 = true := by
  unfold image_callback npReshape
  by_cases hc : 0 < msg.height * msg.width ∧
      msg.data.length % (msg.height * msg.width) = 0
  · rw [if_pos hc]
    have hch : msg.data.length / (msg.height * msg.width) ≠ 3 := by
      intro h3
      apply h
      calc msg.data.length
          = msg.height * msg.width * (msg.data.length / (msg.height * msg.width)) :=
            (Nat.mul_div_cancel' (Nat.dvd_of_mod_eq_zero hc.2)).symm
        _ = msg.height * msg.width * 3 := by rw [h3]
    simp [cvtColorBGR2RGB, hch, isDecodeError]
  · rw [if_neg hc]
    exact ⟨rfl, rfl⟩

/-- Witness for C2: a 2x2 frame with a 1-byte payload is rejected before
any detector call. -/
theorem c2_witness_bad_payload :
    (image_callback cfgA idDrawOps (yoloInit cfgA detPerson detEmpty)
        { height := 2, width := 2, data := [0] }).2.1 = [] ∧
    isDecodeError (image_callback cfgA idDrawOps (yoloInit cfgA detPerson detEmpty)
        { height := 2, width := 2, data := [0] }).2.2 = true :=
  c2_bad_payload_length_decode_error_no_downstream cfgA idDrawOps
    (yoloInit cfgA detPerson detEmpty) { height := 2, width := 2, data := [0] }
    (by decide)

/-- Amended claim C4: for every raw-mode inbound message with at least one
pixel and payload length `height * width * 3`, decode succeeds and yields
the `height x width x 3` buffer whose pixels are the source pixels with
BGR reordered to RGB. -/
theorem c4_raw_decode_succeeds_rgb (msg : RawImageMsg)
    (hpos : 0 < msg.height * msg.width)
    (hlen : msg.data.length = msg.height * msg.width * 3) :
    image_decode msg = Except.ok
      { height := msg.height, width := msg.width, channels := 3,
        data := swapBGR msg.data } := by
  unfold image_decode npReshape
  have hmod : msg.data.length % (msg.height * msg.width) = 0 := by
    rw [hlen]
    exact Nat.mul_mod_right _ _
  rw [if_pos ⟨hpos, hmod⟩]
  have hdiv : msg.data.length / (msg.height * msg.width) = 3 := by
    rw [hlen]
    exact Nat.mul_div_cancel_left 3 hpos
  simp [cvtColorBGR2RGB, hdiv]

/-- Counterexample to C4 as stated: the degenerate 0x0 raw message with an
empty payload satisfies the claim's precondition (payload length equals
`0 * 0 * 3`), yet decode fails, because numpy cannot infer the `-1`
dimension of `reshape(0, 0, -1)`. -/
theorem c4_counterexample_zero_area_frame :
    ({ height := 0, width := 0, data := [] } : RawImageMsg).data.length
        = 0 * 0 * 3 ∧
    image_decode { height := 0, width := 0, data := [] }
        = Except.error DecodeError.reshapeError := by
  constructor
  · rfl
  · rfl

/-- Witness for the amended C4, on the spec's concrete scenario: decoding
the 2x2 BGR frame yields exactly the claimed RGB bytes. -/
theorem c4_witness_concrete_2x2 :
    image_decode msg2x2 = Except.ok
      { height := 2, width := 2, channels := 3,
        data := [255, 0, 0, 0, 255, 0, 0, 0, 255, 255, 255, 255] } := by
  rw [c4_raw_decode_succeeds_rgb msg2x2 (by decide) (by decide)]
  rfl

/-- Claim C5: across a whole successful pass, with arbitrary drawing
operations, the decoded input buffer held by the node is left exactly at
the decoded bytes: every rectangle and label is drawn on the copy made by
`process_image`, never on `self.color_image` itself. -/
theorem c5_input_buffer_unmodified_by_annotation
    (cfg : Config) (ops : DrawOps) (s : NodeState) (msg : RawImageMsg)
    (hok : exceptIsOk (image_callback cfg ops s msg).2.2 = true) :
    (image_callback cfg ops s msg).1.color_image
      = some { height := msg.height, width := msg.width, channels := 3,
               data := swapBGR msg.data } := by
  unfold image_callback npReshape at hok ⊢
  by_cases hc : 0 < msg.height * msg.width ∧
      msg.data.length % (msg.height * msg.width) = 0
  · rw [if_pos hc] at hok ⊢
    by_cases hch : msg.data.length / (msg.height * msg.width) = 3
    · simp [cvtColorBGR2RGB, hch]
    · simp [cvtColorBGR2RGB, hch, exceptIsOk] at hok
  · rw [if_neg hc] at hok
    simp [exceptIsOk] at hok

/-- Witness for C5: a concrete successful pass on the 2x2 frame leaves the
stored buffer at the decoded RGB bytes. -/
theorem c5_witness_concrete :
    (image_callback cfgA idDrawOps (yoloInit cfgA detPerson detEmpty) msg2x2).1.color_image
      = some { height := 2, width := 2, channels := 3, data := swapBGR msg2x2.data } :=
  c5_input_buffer_unmodified_by_annotation cfgA idDrawOps
    (yoloInit cfgA detPerson detEmpty) msg2x2 (by decide)

/-- Claim C3: when both detector calls succeed, the sequence of bounding
boxes built by the pass is exactly model 1's converted detections followed
by model 2's, in their original orders: it has `n1 + n2` entries, the
first `n1` are model 1's in order, the last `n2` are model 2's in order,
with no deduplication and no re-sorting. -/
theorem c3_merged_result_is_ordered_concatenation
    (cfg : Config) (ops : DrawOps) (m1 m2 : ModelState) (buf : ImageBuffer)
    (res1 res2 : ModelResult)
    (h1 : m1.run perCallConf buf = Except.ok res1)
    (h2 : m2.run perCallConf buf = Except.ok res2) :
    mergedOf (process_image cfg ops m1 m2 buf)
        = res1.boxes.map (mkBoundingBox res1.names)
          ++ res2.boxes.map (mkBoundingBox res2.names) ∧
    (mergedOf (process_image cfg ops m1 m2 buf)).length
        = res1.boxes.length + res2.boxes.length ∧
    (mergedOf (process_image cfg ops m1 m2 buf)).take res1.boxes.length
        = res1.boxes.map (mkBoundingBox res1.names) ∧
    (mergedOf (process_image cfg ops m1 m2 buf)).drop res1.boxes.length
        = res2.boxes.map (mkBoundingBox res2.names) := by
  have e : mergedOf (process_image cfg ops m1 m2 buf)
      = res1.boxes.map (mkBoundingBox res1.names)
        ++ res2.boxes.map (mkBoundingBox res2.names) := by
    unfold process_image
    rw [h1, h2]
    simp [mergedOf, handle_results_fst]
  have hl1 : (res1.boxes.map (mkBoundingBox res1.names)).length = res1.boxes.length :=
    List.length_map _ _
  refine ⟨e, ?_, ?_, ?_⟩
  · rw [e]
    simp
  · rw [e, ← hl1]
    exact List.take_left _ _
  · rw [e, ← hl1]
    exact List.drop_left _ _

/-- Witness for C3: concrete merge of one person detection from model 1
and zero detections from model 2. -/
theorem c3_witness_concrete_merge :
    mergedOf (process_image cfgA idDrawOps ⟨detPerson, 1 / 2⟩ ⟨detEmpty, 1 / 2⟩ bufTiny)
        = resPerson.boxes.map (mkBoundingBox resPerson.names)
          ++ resNone.boxes.map (mkBoundingBox resNone.names) ∧
    (mergedOf (process_image cfgA idDrawOps ⟨detPerson, 1 / 2⟩ ⟨detEmpty, 1 / 2⟩ bufTiny)).length
        = resPerson.boxes.length + resNone.boxes.length ∧
    (mergedOf (process_image cfgA idDrawOps ⟨detPerson, 1 / 2⟩ ⟨detEmpty, 1 / 2⟩
        bufTiny)).take resPerson.boxes.length
        = resPerson.boxes.map (mkBoundingBox resPerson.names) ∧
    (mergedOf (process_image cfgA idDrawOps ⟨detPerson, 1 / 2⟩ ⟨detEmpty, 1 / 2⟩
        bufTiny)).drop resPerson.boxes.length
        = resNone.boxes.map (mkBoundingBox resNone.names) :=
  c3_merged_result_is_ordered_concatenation cfgA idDrawOps
    ⟨detPerson, 1 / 2⟩ ⟨detEmpty, 1 / 2⟩ bufTiny resPerson resNone rfl rfl

/-- Claim C1, evaluated on the code: a frame whose decode and both
detector calls succeed yields exactly one annotated-image publication and
zero detections-list publications — the `position_pub` publisher created
in `__init__` is never published to, contradicting the claimed one
detections message per successful frame. -/
theorem c1_success_publishes_image_but_no_detections :
    exceptIsOk (image_callback cfgA idDrawOps
        (yoloInit cfgA detPerson detEmpty) msg1x1).2.2 = true ∧
    (image_callback cfgA idDrawOps
        (yoloInit cfgA detPerson detEmpty) msg1x1).2.1.countP isPubImage = 1 ∧
    (image_callback cfgA idDrawOps
        (yoloInit cfgA detPerson detEmpty) msg1x1).2.1.countP isPubBoundingBoxes = 0 := by
  decide

/-- Claim C7, evaluated on the code: on a frame where both detectors
return zero detections, the pass succeeds with an empty merged sequence,
the published annotated image is pixel-for-pixel the decoded input buffer
(the RGB bytes of the 2x2 BGR frame), but no detections message — empty
or otherwise — is published: the event trace holds exactly the two
detector calls and the one image publication. -/
theorem c7_empty_detections_image_identical_but_no_detections_msg :
    (image_callback cfgA idDrawOps (yoloInit cfgA detEmpty detEmpty) msg2x2).2.1
      = [Event.detectorCall 1 perCallConf, Event.detectorCall 2 perCallConf,
         Event.pubImage
           { height := 2, width := 2, encoding := "rgb8",
             data := [255, 0, 0, 0, 255, 0, 0, 0, 255, 255, 255, 255],
             step := 6, frame_id := "cam" }] ∧
    (image_callback cfgA idDrawOps (yoloInit cfgA detEmpty detEmpty) msg2x2).2.1.countP
        isPubBoundingBoxes = 0 ∧
    (image_callback cfgA idDrawOps (yoloInit cfgA detEmpty detEmpty) msg2x2).2.2
      = Except.ok
          { merged_boxes := []
            combined_frame :=
              { height := 2, width := 2, channels := 3,
                data := [255, 0, 0, 0, 255, 0, 0, 0, 255, 255, 255, 255] } } :=
  ⟨rfl, by decide, rfl⟩

/-- A failed pass performs no publication: its event trace holds detector
calls only. -/
theorem process_error_no_pub (cfg : Config) (ops : DrawOps) (m1 m2 : ModelState)
    (buf : ImageBuffer)
    (h : exceptIsOk (process_image cfg ops m1 m2 buf).2 = false) :
    ((process_image cfg ops m1 m2 buf).1.all fun ev => !(isPublishEvent ev)) = true := by
  cases h1 : m1.run perCallConf buf with
  | error e =>
      unfold process_image
      rw [h1]
      exact rfl
  | ok res1 =>
      cases h2 : m2.run perCallConf buf with
      | error e =>
          unfold process_image
          rw [h1, h2]
          exact rfl
      | ok res2 =>
          exfalso
          unfold process_image at h
          rw [h1, h2] at h
          simp [exceptIsOk] at h

/-- Claim C6: a `ModelInferenceError` in either detector call makes the
pass fail with a `FusionError`; a failed frame publishes nothing (neither
detections nor annotated image) and leaves both loaded models untouched;
and the outcome of a callback depends only on the models and the inbound
message, so the next arriving frame is processed exactly as it would be
from a fresh state (the failure is frame-local, never fatal). -/
theorem c6_detector_failure_is_frame_local :
    (∀ (cfg : Config) (ops : DrawOps) (m1 m2 : ModelState) (buf : ImageBuffer)
        (e : ModelInferenceError), m1.run perCallConf buf = Except.error e →
        (process_image cfg ops m1 m2 buf).2 = Except.error (FusionError.fusion e) ∧
        ((process_image cfg ops m1 m2 buf).1.all fun ev => !(isPublishEvent ev)) = true) ∧
    (∀ (cfg : Config) (ops : DrawOps) (m1 m2 : ModelState) (buf : ImageBuffer)
        (res1 : ModelResult) (e : ModelInferenceError),
        m1.run perCallConf buf = Except.ok res1 →
        m2.run perCallConf buf = Except.error e →
        (process_image cfg ops m1 m2 buf).2 = Except.error (FusionError.fusion e) ∧
        ((process_image cfg ops m1 m2 buf).1.all fun ev => !(isPublishEvent ev)) = true) ∧
    (∀ (cfg : Config) (ops : DrawOps) (s : NodeState) (msg : RawImageMsg),
        exceptIsOk (image_callback cfg ops s msg).2.2 = false →
        ((image_callback cfg ops s msg).2.1.all fun ev => !(isPublishEvent ev)) = true ∧
        (image_callback cfg ops s msg).1.model1 = s.model1 ∧
        (image_callback cfg ops s msg).1.model2 = s.model2) ∧
    (∀ (cfg : Config) (ops : DrawOps) (s t : NodeState) (msg : RawImageMsg),
        s.model1 = t.model1 → s.model2 = t.model2 →
        (image_callback cfg ops s msg).2 = (image_callback cfg ops t msg).2) := by
  refine ⟨?_, ?_, ?_, ?_⟩
  · intro cfg ops m1 m2 buf e h
    constructor
    · unfold process_image
      rw [h]
    · unfold process_image
      rw [h]
      exact rfl
  · intro cfg ops m1 m2 buf res1 e h1 h2
    constructor
    · unfold process_image
      rw [h1, h2]
    · unfold process_image
      rw [h1, h2]
      exact rfl
  · intro cfg ops s msg hfail
    unfold image_callback at hfail ⊢
    cases hnr : npReshape msg with
    | error e => exact ⟨rfl, rfl, rfl⟩
    | ok buf =>
        dsimp only
        cases hcv : cvtColorBGR2RGB buf with
        | error e => exact ⟨rfl, rfl, rfl⟩
        | ok rgb =>
            dsimp only
            refine ⟨?_, rfl, rfl⟩
            have hf : exceptIsOk (process_image cfg ops s.model1 s.model2 rgb).2 = false := by
              cases hpr : (process_image cfg ops s.model1 s.model2 rgb).2 with
              | error e => rfl
              | ok out =>
                  exfalso
                  rw [hnr] at hfail
                  dsimp only at hfail
                  rw [hcv] at hfail
                  dsimp only at hfail
                  rw [hpr] at hfail
                  simp [exceptIsOk] at hfail
            exact process_error_no_pub cfg ops s.model1 s.model2 rgb hf
  · intro cfg ops s t msg hm1 hm2
    unfold image_callback
    cases hnr : npReshape msg with
    | error e => rfl
    | ok buf =>
        dsimp only
        cases hcv : cvtColorBGR2RGB buf with
        | error e => rfl
        | ok rgb =>
            dsimp only
            rw [hm1, hm2]

/-- Witness for C6: model 2 fails with a device error on a concrete frame:
the pass returns the wrapped fusion error and publishes nothing; and the
callback after that failed frame behaves on the next frame exactly as the
freshly initialised node does. -/
theorem c6_witness_concrete :
    ((process_image cfgA idDrawOps ⟨detPerson, 1 / 2⟩ ⟨detFail, 1 / 2⟩ bufTiny).2
        = Except.error (FusionError.fusion ModelInferenceError.deviceError) ∧
      ((process_image cfgA idDrawOps ⟨detPerson, 1 / 2⟩ ⟨detFail, 1 / 2⟩ bufTiny).1.all
        fun ev => !(isPublishEvent ev)) = true) ∧
    (image_callback cfgA idDrawOps
        (image_callback cfgA idDrawOps (yoloInit cfgA detPerson detFail) msg1x1).1 msg2x2).2
      = (image_callback cfgA idDrawOps (yoloInit cfgA detPerson detFail) msg2x2).2 :=
  ⟨c6_detector_failure_is_frame_local.2.1 cfgA idDrawOps ⟨detPerson, 1 / 2⟩
      ⟨detFail, 1 / 2⟩ bufTiny resPerson ModelInferenceError.deviceError rfl rfl,
   c6_detector_failure_is_frame_local.2.2.2 cfgA idDrawOps
      (image_callback cfgA idDrawOps (yoloInit cfgA detPerson detFail) msg1x1).1
      (yoloInit cfgA detPerson detFail) msg2x2 rfl rfl⟩

/-- Claim C8: every confidence floor recorded at a detector invocation is
the hardcoded `perCallConf` — the trace is a replicate of that one
constant, however the node is configured — the constant is `3/10`, and
startup applies the configured publication threshold to each model
instance separately. -/
theorem c8_fixed_per_call_floor_and_startup_threshold
    (cfg : Config) (ops : DrawOps) (m1 m2 : ModelState) (buf : ImageBuffer)
    (d1 d2 : Detector) :
    (process_image cfg ops m1 m2 buf).1.filterMap eventFloor
      = List.replicate ((process_image cfg ops m1 m2 buf).1.countP isDetectorCall)
          perCallConf ∧
    perCallConf = 3 / 10 ∧
    (yoloInit cfg d1 d2).model1.conf = cfg.conf ∧
    (yoloInit cfg d1 d2).model2.conf = cfg.conf := by
  refine ⟨?_, rfl, rfl, rfl⟩
  cases h1 : m1.run perCallConf buf with
  | error e =>
      unfold process_image
      rw [h1]
      rfl
  | ok res1 =>
      cases h2 : m2.run perCallConf buf with
      | error e =>
          unfold process_image
          rw [h1, h2]
          rfl
      | ok res2 =>
          unfold process_image
          rw [h1, h2]
          dsimp only
          by_cases hv : cfg.visualize
          · simp [hv, eventFloor, isDetectorCall, List.replicate]
          · simp [hv, eventFloor, isDetectorCall, List.replicate]

/-- Boolean internal-consistency check of one event against the processed
frame dimensions: a published image message must use `rgb8`, have
`step = width * 3`, carry `height * width * 3` payload bytes (hence
payload length = height * step), and take its dimensions from the
processed frame. -/
def imageMsgOk (inH inW : Nat) : Event → Bool
  | Event.pubImage m =>
      decide (m.encoding = "rgb8") && decide (m.step = m.width * 3)
        && decide (m.data.length = m.height * m.width * 3)
        && decide (m.height = inH) && decide (m.width = inW)
  | _ => true

/-- Every image message published by a pass over a well-formed buffer is
internally consistent; drawing cannot break this because the OpenCV
primitives draw in place. -/
theorem process_image_pub_consistent (cfg : Config) (ops : DrawOps)
    (m1 m2 : ModelState) (buf : ImageBuffer)
    (hlen : buf.data.length = buf.height * buf.width * 3) :
    ((process_image cfg ops m1 m2 buf).1.all (imageMsgOk buf.height buf.width)) = true := by
  cases h1 : m1.run perCallConf buf with
  | error e =>
      unfold process_image
      rw [h1]
      exact rfl
  | ok res1 =>
      cases h2 : m2.run perCallConf buf with
      | error e =>
          unfold process_image
          rw [h1, h2]
          exact rfl
      | ok res2 =>
          unfold process_image
          rw [h1, h2]
          dsimp only
          have hshape : shapeOf
              (handle_results ops res2 (handle_results ops res1 (bufferCopy buf)).2).2
              = shapeOf buf := by
            rw [handle_results_snd_shape, handle_results_snd_shape]
            rfl
          have hdl : (handle_results ops res2
                (handle_results ops res1 (bufferCopy buf)).2).2.data.length
              = buf.data.length :=
            congrArg (fun t => t.2.2.2) hshape
          by_cases hv : cfg.visualize
          · simp [hv, imageMsgOk, publish_image, hdl, hlen]
          · simp [hv, imageMsgOk, publish_image, hdl, hlen]

/-- Claim C9: every annotated-image message published by the callback is
internally consistent: encoding `rgb8`, height and width from the
processed frame's shape, `step = width * 3`, and payload length
`height * width * 3` (equivalently, height * step) bytes. -/
theorem c9_published_image_message_consistent (cfg : Config) (ops : DrawOps)
    (s : NodeState) (msg : RawImageMsg) :
    ((image_callback cfg ops s msg).2.1.all (imageMsgOk msg.height msg.width)) = true := by
  unfold image_callback npReshape
  by_cases hc : 0 < msg.height * msg.width ∧
      msg.data.length % (msg.height * msg.width) = 0
  · rw [if_pos hc]
    by_cases hch : msg.data.length / (msg.height * msg.width) = 3
    · have hlen3 : msg.data.length = msg.height * msg.width * 3 := by
        calc msg.data.length
            = msg.height * msg.width * (msg.data.length / (msg.height * msg.width)) :=
              (Nat.mul_div_cancel' (Nat.dvd_of_mod_eq_zero hc.2)).symm
          _ = msg.height * msg.width * 3 := by rw [hch]
      simp only [cvtColorBGR2RGB, hch]
      exact process_image_pub_consistent cfg ops s.model1 s.model2
        { height := msg.height, width := msg.width, channels := 3,
          data := swapBGR msg.data }
        (by simpa [swapBGR_length] using hlen3)
    · simp [cvtColorBGR2RGB, hch]
  · rw [if_neg hc]
    exact rfl

/-- Claim C10: the integer box fields built by `handle_results` come from
`np.int64` conversion of the model's float coordinates, which truncates
toward zero (at 10.7 it yields 10 where rounding would yield 11), and the
confidence is passed through to the `probability` field unmodified and
unclamped (a confidence of 1.5 stays 1.5). -/
theorem c10_box_coords_truncate_toward_zero_conf_passthrough :
    (∀ (ops : DrawOps) (res : ModelResult) (frame : ImageBuffer),
        (handle_results ops res frame).1 = res.boxes.map (mkBoundingBox res.names)) ∧
    (∀ (names : Nat → String) (r : RawDetection),
        (mkBoundingBox names r).xmin = truncToZero r.x0 ∧
        (mkBoundingBox names r).ymin = truncToZero r.y0 ∧
        (mkBoundingBox names r).xmax = truncToZero r.x1 ∧
        (mkBoundingBox names r).ymax = truncToZero r.y1 ∧
        (mkBoundingBox names r).Class = names r.cls ∧
        (mkBoundingBox names r).probability = r.conf) ∧
    (mkBoundingBox (fun _ => "obj")
        ⟨107 / 10, 21 / 10, 503 / 10, 807 / 10, 0, 3 / 2⟩).xmin = 10 ∧
    round ((107 : ℚ) / 10) = 11 ∧
    (mkBoundingBox (fun _ => "obj")
        ⟨107 / 10, 21 / 10, 503 / 10, 807 / 10, 0, 3 / 2⟩).probability = 3 / 2 := by
  refine ⟨fun ops res frame => handle_results_fst ops res frame,
          fun names r => ⟨rfl, rfl, rfl, rfl, rfl, rfl⟩, ?_, ?_, rfl⟩
  · show truncToZero (107 / 10) = 10
    rw [truncToZero, if_pos (by norm_num)]
    norm_num [Int.floor_eq_iff]
  · rw [round_eq]
    norm_num [Int.floor_eq_iff]

end YoloV8
